import Mathlib

/-!
Shallow embedding of the event-date resolver of `src/brunch.py`
(Fruehstuecksbrunch web application).

Modelling conventions:

* All datetimes are civil wall-clock times in the fixed timezone
  Europe/Berlin.  Every datetime this code compares is localized to that
  single timezone, and the only aware-vs-aware comparisons performed lie
  within ranges that contain no DST transition boundary effect, so ordering
  of aware datetimes coincides with lexicographic ordering of the
  (year, month, day, hour, minute, second, microsecond) components; we model
  a datetime as that component tuple.
* Python `datetime.strptime` / `strftime` with the formats `'%d.%m.%Y'` and
  `'%Y-%m-%d'` are embedded as explicit character-level parsers/printers
  (see `parseDMY`, `parseYMD`, `fmtDate`).
* A `ValueError` swallowed by a `try/except ValueError` is embedded as an
  `Option.none` result of the parse; an exception that escapes is embedded
  with `Except.error`.
* The configuration store (`get_config`) yields `Option String`
  (`none` when the key has no row); Python truthiness of that value is
  `optTruthy`.
-/

/-- A calendar date (the `datetime.date` component triple). -/
structure Date where
  year : Nat
  month : Nat
  day : Nat
deriving DecidableEq

/-- A civil datetime in Europe/Berlin: the component tuple of a localized
`datetime.datetime`. -/
structure DateTime where
  year : Nat
  month : Nat
  day : Nat
  hour : Nat
  minute : Nat
  second : Nat
  micro : Nat
deriving DecidableEq

/-- Gregorian leap-year rule, as in `datetime` (CPython `_is_leap`). -/
def isLeap (y : Nat) : Bool :=
  (y % 4 == 0 && y % 100 != 0) || y % 400 == 0

/-- Number of days of a month, as in CPython `_days_in_month`. -/
def daysInMonth (y m : Nat) : Nat :=
  if m = 2 then (if isLeap y then 29 else 28)
  else if m = 4 ∨ m = 6 ∨ m = 9 ∨ m = 11 then 30
  else 31

/-- Days in year `y` strictly before month `m` (CPython `_days_before_month`). -/
def daysBeforeMonth (y m : Nat) : Nat :=
  ((List.range (m - 1)).map (fun j => daysInMonth y (j + 1))).sum

/-- Days before January 1st of year `y` (CPython `_days_before_year`). -/
def daysBeforeYear (y : Nat) : Nat :=
  365 * (y - 1) + (y - 1) / 4 - (y - 1) / 100 + (y - 1) / 400

/-- Proleptic Gregorian ordinal of a date (CPython `_ymd2ord`):
day 1 is January 1st of year 1. -/
def toOrdinal (y m d : Nat) : Nat :=
  daysBeforeYear y + daysBeforeMonth y m + d

/-- Weekday with Monday = 0 … Sunday = 6, as Python `date.weekday()`. -/
def weekday (y m d : Nat) : Nat :=
  (toOrdinal y m d + 6) % 7

/-- Embeds `event_date_for_month` (src/brunch.py lines 208–217): the first day
of the month, plus `(6 - weekday(first_day)) % 7` days to reach the first
Sunday, plus 14 days.  The resulting day number is at most 21, so the
`timedelta` additions never leave the month and are reflected on the day
field. -/
def event_date_for_month (year month : Nat) : Date :=
  let w := weekday year month 1
  ⟨year, month, 1 + (6 - w) % 7 + 14⟩


/-- Numeric value of a decimal digit character. -/
def charVal (c : Char) : Nat := c.toNat - 48

/-- Decimal-digit test on a character. -/
def isDig (c : Char) : Bool := decide (48 ≤ c.toNat) && decide (c.toNat ≤ 57)

/-- Value of a two-digit decimal group. -/
def val2 (a b : Char) : Nat := 10 * charVal a + charVal b

/-- Value of a four-digit decimal group. -/
def val4 (a b c d : Char) : Nat :=
  1000 * charVal a + 100 * charVal b + 10 * charVal c + charVal d

/-- Embeds `datetime(year, month, day)` construction from already
regex-matched `strptime` groups: the `%d` group is constrained to 1–31 and
`%m` to 1–12 by the `strptime` patterns, and the constructor additionally
enforces `MINYEAR ≤ year ≤ MAXYEAR` and that the day exists in the month,
raising `ValueError` (here: `none`) otherwise. -/
def mkDMY (dv mv yv : Nat) : Option Date :=
  if 1 ≤ dv ∧ dv ≤ 31 ∧ 1 ≤ mv ∧ mv ≤ 12 ∧ 1 ≤ yv ∧ yv ≤ 9999 ∧
     dv ≤ daysInMonth yv mv
  then some ⟨yv, mv, dv⟩ else none

/-- Embeds `datetime.strptime(s, '%d.%m.%Y')` on the character list of `s`:
the compiled pattern accepts one or two digits for `%d`, one or two digits
for `%m`, exactly four digits for `%Y`, the literal dots, and requires the
whole string to be consumed; `mkDMY` then performs the date validation of
the `datetime` constructor. -/
def parseDMYList : List Char → Option Date
  | [d1, d2, '.', m1, m2, '.', y1, y2, y3, y4] =>
    if isDig d1 && isDig d2 && isDig m1 && isDig m2 &&
       isDig y1 && isDig y2 && isDig y3 && isDig y4
    then mkDMY (val2 d1 d2) (val2 m1 m2) (val4 y1 y2 y3 y4) else none
  | [d1, '.', m1, m2, '.', y1, y2, y3, y4] =>
    if isDig d1 && isDig m1 && isDig m2 &&
       isDig y1 && isDig y2 && isDig y3 && isDig y4
    then mkDMY (charVal d1) (val2 m1 m2) (val4 y1 y2 y3 y4) else none
  | [d1, d2, '.', m1, '.', y1, y2, y3, y4] =>
    if isDig d1 && isDig d2 && isDig m1 &&
       isDig y1 && isDig y2 && isDig y3 && isDig y4
    then mkDMY (val2 d1 d2) (charVal m1) (val4 y1 y2 y3 y4) else none
  | [d1, '.', m1, '.', y1, y2, y3, y4] =>
    if isDig d1 && isDig m1 && isDig y1 && isDig y2 && isDig y3 && isDig y4
    then mkDMY (charVal d1) (charVal m1) (val4 y1 y2 y3 y4) else none
  | _ => none

/-- Embeds `datetime.strptime(s, '%d.%m.%Y')`; `none` is a `ValueError`. -/
def parseDMY (s : String) : Option Date := parseDMYList s.data

/-- Embeds `datetime.strptime(s, '%Y-%m-%d')` on the character list of `s`
(used by the admin `update_settings` route): exactly four digits for `%Y`,
one or two digits for `%m` and `%d`, literal dashes, full match, followed by
the `datetime` constructor validation. -/
def parseYMDList : List Char → Option Date
  | [y1, y2, y3, y4, '-', m1, m2, '-', d1, d2] =>
    if isDig y1 && isDig y2 && isDig y3 && isDig y4 &&
       isDig m1 && isDig m2 && isDig d1 && isDig d2
    then mkDMY (val2 d1 d2) (val2 m1 m2) (val4 y1 y2 y3 y4) else none
  | [y1, y2, y3, y4, '-', m1, '-', d1, d2] =>
    if isDig y1 && isDig y2 && isDig y3 && isDig y4 &&
       isDig m1 && isDig d1 && isDig d2
    then mkDMY (val2 d1 d2) (charVal m1) (val4 y1 y2 y3 y4) else none
  | [y1, y2, y3, y4, '-', m1, m2, '-', d1] =>
    if isDig y1 && isDig y2 && isDig y3 && isDig y4 &&
       isDig m1 && isDig m2 && isDig d1
    then mkDMY (charVal d1) (val2 m1 m2) (val4 y1 y2 y3 y4) else none
  | [y1, y2, y3, y4, '-', m1, '-', d1] =>
    if isDig y1 && isDig y2 && isDig y3 && isDig y4 &&
       isDig m1 && isDig d1
    then mkDMY (charVal d1) (charVal m1) (val4 y1 y2 y3 y4) else none
  | _ => none

/-- Embeds `datetime.strptime(s, '%Y-%m-%d')`; `none` is a `ValueError`. -/
def parseYMD (s : String) : Option Date := parseYMDList s.data

/-- Character of a decimal digit (value below ten). -/
def digitChar (n : Nat) : Char := Char.ofNat (48 + n)

/-- Two-digit zero-padded decimal rendering (strftime `%d` / `%m`). -/
def pad2 (n : Nat) : List Char := [digitChar (n / 10), digitChar (n % 10)]

/-- Four-digit zero-padded decimal rendering (strftime `%Y`). -/
def pad4 (n : Nat) : List Char :=
  [digitChar (n / 1000), digitChar (n / 100 % 10),
   digitChar (n / 10 % 10), digitChar (n % 10)]

/-- Embeds `dt.strftime('%d.%m.%Y')`: zero-padded day and month, four-digit
year. -/
def fmtDate (D : Date) : String :=
  String.mk (pad2 D.day ++ '.' :: (pad2 D.month ++ '.' :: pad4 D.year))


/-- Python truthiness of a configuration value: `get_config` yields `None`
(no row) or a string; `None` and the empty string are falsy. -/
def optTruthy : Option String → Bool
  | none => false
  | some s => decide (s ≠ "")

/-- Datetime at a given time of day on a date (embeds
`tz.localize(datetime(...))` / `.replace(hour=…, minute=…, second=…,
microsecond=…)` on the wall-clock components). -/
def atTime (D : Date) (h mi s us : Nat) : DateTime :=
  ⟨D.year, D.month, D.day, h, mi, s, us⟩

/-- Mixed-radix key realizing the lexicographic component order of Python
datetime comparison; the radices 13, 32, 24, 60, 60, 1000000 strictly bound
every component of the datetimes compared by this program. -/
def dtKey (t : DateTime) : Nat :=
  (((((t.year * 13 + t.month) * 32 + t.day) * 24 + t.hour) * 60 + t.minute)
      * 60 + t.second) * 1000000 + t.micro

/-- The calendar day before a date (embeds `- timedelta(days=1)` on the date
component of a valid datetime). -/
def prevDay (D : Date) : Date :=
  if 2 ≤ D.day then ⟨D.year, D.month, D.day - 1⟩
  else if 2 ≤ D.month then ⟨D.year, D.month - 1, daysInMonth D.year (D.month - 1)⟩
  else ⟨D.year - 1, 12, 31⟩

/-- Python exceptions that the modelled code can raise. -/
inductive PyExn where
  | valueError : PyExn
  | typeError : PyExn
deriving DecidableEq

/-- Embeds `is_event_cancelled` (src/brunch.py lines 277–278):
`get_config('next_date_cancelled') == '1'`. -/
def is_event_cancelled (c : Option String) : Bool :=
  decide (c = some "1")

/-- Embeds `next_brunch_date` (src/brunch.py lines 233–256).  `o` is the
stored `next_date_override` value and `now` the current Berlin time.  A
truthy override that `strptime` accepts is returned verbatim; otherwise the
default occurrence of `now`'s month is used, advanced to the next month when
`now` is strictly past 15:00 of that occurrence. -/
def next_brunch_date (o : Option String) (now : DateTime) : String :=
  if optTruthy o && (parseDMY (o.getD "")).isSome then o.getD ""
  else
    let ev := event_date_for_month now.year now.month
    if dtKey (atTime ev 15 0 0 0) < dtKey now then
      let month := now.month % 12 + 1
      let year := now.year + (if month = 1 then 1 else 0)
      fmtDate (event_date_for_month year month)
    else fmtDate ev

/-- Embeds `should_show_exception_notice` (src/brunch.py lines 219–231):
with a truthy override that parses, whether its date differs from the
default occurrence of its own month; `False` otherwise (a `ValueError`
is swallowed). -/
def should_show_exception_notice (o : Option String) : Bool :=
  if optTruthy o then
    match parseDMY (o.getD "") with
    | some D => decide (D ≠ event_date_for_month D.year D.month)
    | none => false
  else false

/-- Embeds `current_brunch_date` (src/brunch.py lines 316–330): a truthy
override that parses is returned verbatim; otherwise the default occurrence
of `now`'s month, with no advancing to the next month. -/
def current_brunch_date (o : Option String) (now : DateTime) : String :=
  if optTruthy o && (parseDMY (o.getD "")).isSome then o.getD ""
  else fmtDate (event_date_for_month now.year now.month)

/-- Embeds `should_reset_database` (src/brunch.py lines 332–339): whether
`now` is strictly past 15:00 of the date `current_brunch_date` yields.  The
function re-parses that string with `strptime`; an unparseable string would
raise `ValueError`. -/
def should_reset_database (o : Option String) (now : DateTime) :
    Except PyExn Bool :=
  match parseDMY (current_brunch_date o now) with
  | none => .error .valueError
  | some D => .ok (decide (dtKey (atTime D 15 0 0 0) < dtKey now))

/-- Embeds `is_registration_open` (src/brunch.py lines 258–275): false when
cancelled; otherwise the negation of membership in the closed interval from
00:00 two days before the resolved date through 15:00 on the resolved date.
The resolved date is re-parsed from the `next_brunch_date` string; an
unparseable string would raise `ValueError`. -/
def is_registration_open (o c : Option String) (now : DateTime) :
    Except PyExn Bool :=
  if is_event_cancelled c then .ok false
  else
    match parseDMY (next_brunch_date o now) with
    | none => .error .valueError
    | some D =>
      let fri := atTime (prevDay (prevDay D)) 0 0 0 0
      let brunchEnd := atTime D 15 0 0 0
      .ok (!decide (dtKey fri ≤ dtKey now ∧ dtKey now ≤ dtKey brunchEnd))

/-- Embeds the `update_settings` admin route (src/brunch.py lines 556–573):
returns the pair of stored values `(next_date_override,
next_date_cancelled)` for a stripped `override_date` form field and the
presence of the `cancel_next` checkbox.  A truthy submission is parsed with
`'%Y-%m-%d'`; on success the `'%d.%m.%Y'` rendering is stored, on
`ValueError` the empty string. -/
def update_settings (override_date : String) (cancel_next : Bool) :
    String × String :=
  (if override_date = "" then ""
   else
     match parseYMD override_date with
     | some D => fmtDate D
     | none => "",
   if cancel_next then "1" else "0")

/-- Embeds the Python ordering comparison between an offset-naive and an
offset-aware datetime: `strptime` yields a naive datetime while
`event_date_for_month` yields an aware one, and Python 3 raises `TypeError`
("can't compare offset-naive and offset-aware datetimes") on `<` between
them, for every pair of operands. -/
def naiveAwareLt (_a _b : DateTime) : Except PyExn Bool :=
  .error .typeError

deriving instance DecidableEq for Except

/-- Embeds the configuration-reset block shared by
`reset_database_at_event_time` (src/brunch.py lines 1009–1024) and the
`reset_db` route (lines 1036–1052): given the stored override, yields the
new `(next_date_override, next_date_cancelled)` pair, where an unchanged
`Option` means the key was not rewritten.  The block parses the override
with `strptime` (naive), computes the default occurrence of its month
(aware), and orders the two with `<`; only `ValueError` is caught, so the
`TypeError` of that comparison escapes, before any `set_config` write. -/
def reset_config_transition (o : Option String) :
    Except PyExn (Option String × Option String) :=
  if optTruthy o then
    match parseDMY (o.getD "") with
    | none => .ok (some "", some "0")
    | some D =>
      match naiveAwareLt (atTime D 0 0 0 0)
          (atTime (event_date_for_month D.year D.month) 0 0 0 0) with
      | .error e => .error e
      | .ok true =>
        let next_month := D.month % 12 + 1
        let next_year := D.year + (if D.month = 12 then 1 else 0)
        .ok (some (fmtDate (event_date_for_month next_year next_month)),
             some "0")
      | .ok false => .ok (some "", some "0")
  else .ok (o, some "0")


/-- Every month has at least 28 days. -/
theorem daysInMonth_ge (y m : Nat) : 28 ≤ daysInMonth y m := by
  unfold daysInMonth
  split
  · split <;> omega
  · split <;> omega

/-- Every month has at most 31 days. -/
theorem daysInMonth_le (y m : Nat) : daysInMonth y m ≤ 31 := by
  unfold daysInMonth
  split
  · split <;> omega
  · split <;> omega

/-- Weekdays within one month advance with the day number. -/
theorem weekday_shift (y m k : Nat) (hk : 1 ≤ k) :
    weekday y m k = (weekday y m 1 + (k - 1)) % 7 := by
  unfold weekday toOrdinal
  omega

/-- The weekday function takes values below seven. -/
theorem weekday_lt (y m d : Nat) : weekday y m d < 7 :=
  Nat.mod_lt _ (by norm_num)

/-- The day number chosen by `event_date_for_month`, in terms of the weekday
of the first of the month. -/
theorem event_day_eq (y m : Nat) :
    (event_date_for_month y m).day = 21 - weekday y m 1 := by
  have h := weekday_lt y m 1
  simp only [event_date_for_month]
  omega

/-- The year and month of `event_date_for_month` are the inputs. -/
theorem event_year_month (y m : Nat) :
    (event_date_for_month y m).year = y ∧ (event_date_for_month y m).month = m :=
  ⟨rfl, rfl⟩

/-- The chosen day lies between 15 and 21. -/
theorem event_day_bounds (y m : Nat) :
    15 ≤ (event_date_for_month y m).day ∧ (event_date_for_month y m).day ≤ 21 := by
  have h := weekday_lt y m 1
  rw [event_day_eq]
  omega

/-- The chosen day falls on a Sunday. -/
theorem event_day_sunday (y m : Nat) :
    weekday y m (event_date_for_month y m).day = 6 := by
  have h := weekday_lt y m 1
  rw [event_day_eq, weekday_shift y m _ (by omega)]
  omega

/-- Exactly three Sundays of the month are at or before the chosen day. -/
theorem event_day_sunday_count (y m : Nat) :
    ((Finset.Icc 1 (event_date_for_month y m).day).filter
        (fun k => weekday y m k = 6)).card = 3 := by
  have h7 := weekday_lt y m 1
  have hcong :
      (Finset.Icc 1 (event_date_for_month y m).day).filter
          (fun k => weekday y m k = 6) =
        (Finset.Icc 1 (21 - weekday y m 1)).filter
          (fun k => (weekday y m 1 + (k - 1)) % 7 = 6) := by
    rw [event_day_eq]
    refine Finset.filter_congr ?_
    intro k hk
    rw [weekday_shift y m k (Finset.mem_Icc.mp hk).1]
  rw [hcong]
  generalize weekday y m 1 = w at h7
  interval_cases w <;> decide

/-- A digit character is recognised as a digit. -/
theorem isDig_digitChar {n : Nat} (h : n < 10) : isDig (digitChar n) = true := by
  interval_cases n <;> decide

/-- The value of a digit character is the digit. -/
theorem charVal_digitChar {n : Nat} (h : n < 10) : charVal (digitChar n) = n := by
  interval_cases n <;> decide

/-- `val2` recovers a two-digit number from its padded rendering. -/
theorem val2_pad {n : Nat} (h : n ≤ 99) :
    val2 (digitChar (n / 10)) (digitChar (n % 10)) = n := by
  unfold val2
  rw [charVal_digitChar (by omega), charVal_digitChar (by omega)]
  omega

/-- `val4` recovers a four-digit number from its padded rendering. -/
theorem val4_pad {n : Nat} (h : n ≤ 9999) :
    val4 (digitChar (n / 1000)) (digitChar (n / 100 % 10))
      (digitChar (n / 10 % 10)) (digitChar (n % 10)) = n := by
  unfold val4
  rw [charVal_digitChar (by omega), charVal_digitChar (by omega),
      charVal_digitChar (by omega), charVal_digitChar (by omega)]
  omega

/-- A date is valid when a Python `datetime` can hold it. -/
def ValidDate (D : Date) : Prop :=
  1 ≤ D.day ∧ D.day ≤ daysInMonth D.year D.month ∧ 1 ≤ D.month ∧
    D.month ≤ 12 ∧ 1 ≤ D.year ∧ D.year ≤ 9999

instance (D : Date) : Decidable (ValidDate D) := by
  unfold ValidDate
  infer_instance

/-- A successful `mkDMY` yields exactly its validated arguments. -/
theorem mkDMY_some {dv mv yv : Nat} {D : Date}
    (h : mkDMY dv mv yv = some D) :
    D = ⟨yv, mv, dv⟩ ∧ ValidDate D := by
  unfold mkDMY at h
  split at h
  · rename_i hc
    cases h
    refine ⟨rfl, ?_⟩
    have h31 := daysInMonth_le yv mv
    exact ⟨hc.1, hc.2.2.2.2.2.2, hc.2.2.1, hc.2.2.2.1, hc.2.2.2.2.1, hc.2.2.2.2.2.1⟩
  · cases h

/-- `mkDMY` succeeds on a valid date. -/
theorem mkDMY_of_valid {D : Date} (h : ValidDate D) :
    mkDMY D.day D.month D.year = some D := by
  obtain ⟨h1, h2, h3, h4, h5, h6⟩ := h
  have h31 := daysInMonth_le D.year D.month
  unfold mkDMY
  rw [if_pos ⟨h1, by omega, h3, h4, h5, h6, h2⟩]

/-- Every date produced by `parseDMY` is valid. -/
theorem parseDMY_valid {s : String} {D : Date}
    (h : parseDMY s = some D) : ValidDate D := by
  unfold parseDMY parseDMYList at h
  split at h <;> try split at h
  all_goals first
    | exact (mkDMY_some h).2
    | exact Option.noConfusion h

/-- Every date produced by `parseYMD` is valid. -/
theorem parseYMD_valid {s : String} {D : Date}
    (h : parseYMD s = some D) : ValidDate D := by
  unfold parseYMD parseYMDList at h
  split at h <;> try split at h
  all_goals first
    | exact (mkDMY_some h).2
    | exact Option.noConfusion h

/-- Evaluation of the `'%d.%m.%Y'` pattern on a two-two-four digit shape. -/
theorem parseDMYList_shape (c1 c2 c3 c4 c5 c6 c7 c8 : Char) :
    parseDMYList [c1, c2, '.', c3, c4, '.', c5, c6, c7, c8] =
      if isDig c1 && isDig c2 && isDig c3 && isDig c4 &&
         isDig c5 && isDig c6 && isDig c7 && isDig c8
      then mkDMY (val2 c1 c2) (val2 c3 c4) (val4 c5 c6 c7 c8) else none := by
  simp only [parseDMYList]

/-- Parsing is a left inverse of formatting on valid dates. -/
theorem parseDMY_fmtDate {D : Date} (h : ValidDate D) :
    parseDMY (fmtDate D) = some D := by
  obtain ⟨y, m, d⟩ := D
  have hflat : 1 ≤ d ∧ d ≤ daysInMonth y m ∧ 1 ≤ m ∧ m ≤ 12 ∧ 1 ≤ y ∧ y ≤ 9999 := h
  obtain ⟨h1, h2, h3, h4, h5, h6⟩ := hflat
  have hd : d ≤ 31 := le_trans h2 (daysInMonth_le y m)
  show parseDMYList (pad2 d ++ '.' :: (pad2 m ++ '.' :: pad4 y)) = some ⟨y, m, d⟩
  simp only [pad2, pad4, List.cons_append, List.nil_append]
  rw [parseDMYList_shape]
  rw [isDig_digitChar (by omega), isDig_digitChar (by omega),
      isDig_digitChar (by omega), isDig_digitChar (by omega),
      isDig_digitChar (by omega), isDig_digitChar (by omega),
      isDig_digitChar (by omega), isDig_digitChar (by omega)]
  simp only [Bool.and_self, if_true]
  rw [val2_pad (by omega), val2_pad (by omega), val4_pad (by omega)]
  exact mkDMY_of_valid h

/-- C1: `event_date_for_month(year, month)` returns the third Sunday of the
month: same year and month, day computed as the first day of the month plus
`(6 - weekday(firstDay)) % 7` days plus 14 days, its weekday is Sunday, it
lies within the month, and exactly three Sundays of the month are at or
before it.  The function is a total function, hence deterministic with no
failure mode. -/
theorem event_date_for_month_third_sunday (y m : Nat)
    (hm1 : 1 ≤ m) (hm2 : m ≤ 12) :
    (event_date_for_month y m).year = y ∧
    (event_date_for_month y m).month = m ∧
    (event_date_for_month y m).day = 1 + (6 - weekday y m 1) % 7 + 14 ∧
    weekday y m (event_date_for_month y m).day = 6 ∧
    (event_date_for_month y m).day ≤ daysInMonth y m ∧
    ((Finset.Icc 1 (event_date_for_month y m).day).filter
        (fun k => weekday y m k = 6)).card = 3 := by
  refine ⟨rfl, rfl, rfl, event_day_sunday y m, ?_, event_day_sunday_count y m⟩
  have h := (event_day_bounds y m).2
  have h28 := daysInMonth_ge y m
  omega

/-- Witness for C1 at March 2024: the result is day 17 and a Sunday, matching
the known calendar (17.03.2024). -/
theorem event_date_for_month_third_sunday_witness :
    (1 ≤ 3 ∧ 3 ≤ 12) ∧ (event_date_for_month 2024 3).day = 17 ∧
      weekday 2024 3 (event_date_for_month 2024 3).day = 6 :=
  ⟨⟨by decide, by decide⟩, by decide,
    (event_date_for_month_third_sunday 2024 3 (by decide) (by decide)).2.2.2.1⟩

/-- C2: with no override set, `next_brunch_date` returns the default
occurrence of `now`'s month when `now` is at or before that occurrence's
15:00 cutoff, and the default occurrence of the following month when `now`
is strictly after the cutoff, wrapping December to January with the year
incremented. -/
theorem next_brunch_date_no_override (o : Option String) (now : DateTime)
    (ho : optTruthy o = false) (hm1 : 1 ≤ now.month) (hm2 : now.month ≤ 12) :
    (dtKey now ≤ dtKey (atTime (event_date_for_month now.year now.month) 15 0 0 0) →
      next_brunch_date o now = fmtDate (event_date_for_month now.year now.month)) ∧
    (dtKey (atTime (event_date_for_month now.year now.month) 15 0 0 0) < dtKey now →
      (now.month = 12 →
        next_brunch_date o now = fmtDate (event_date_for_month (now.year + 1) 1)) ∧
      (now.month ≠ 12 →
        next_brunch_date o now = fmtDate (event_date_for_month now.year (now.month + 1)))) := by
  unfold next_brunch_date
  rw [ho]
  simp only [Bool.false_and, Bool.false_eq_true, if_false]
  constructor
  · intro hle
    rw [if_neg (by omega)]
  · intro hlt
    rw [if_pos hlt]
    constructor
    · intro h12
      rw [h12]
      norm_num
    · intro h12
      have hmod : now.month % 12 + 1 = now.month + 1 := by omega
      rw [hmod, if_neg (by omega), Nat.add_zero]

/-- Witness for C2: before the March 2024 cutoff the resolver returns the
March occurrence; after the December 2024 cutoff it rolls over to January
2025. -/
theorem next_brunch_date_no_override_witness :
    optTruthy none = false ∧
    next_brunch_date none ⟨2024, 3, 17, 14, 0, 0, 0⟩ =
      fmtDate (event_date_for_month 2024 3) ∧
    next_brunch_date none ⟨2024, 12, 16, 0, 0, 0, 0⟩ =
      fmtDate (event_date_for_month 2025 1) :=
  ⟨by decide,
    (next_brunch_date_no_override none ⟨2024, 3, 17, 14, 0, 0, 0⟩ (by decide)
      (by decide) (by decide)).1 (by decide),
    ((next_brunch_date_no_override none ⟨2024, 12, 16, 0, 0, 0, 0⟩ (by decide)
      (by decide) (by decide)).2 (by decide)).1 rfl⟩

/-- C3: a non-empty stored override that parses as a valid date is returned
verbatim by `next_brunch_date`, for every current time and without any
validation beyond parsing (no Sunday or future check). -/
theorem next_brunch_date_override_verbatim (s : String) (now : DateTime)
    (D : Date) (h1 : s ≠ "") (h2 : parseDMY s = some D) :
    next_brunch_date (some s) now = s := by
  unfold next_brunch_date
  have ht : optTruthy (some s) = true := by
    simp [optTruthy, h1]
  rw [show (some s).getD "" = s from rfl, ht, h2]
  rfl

/-- Witness for C3: an override on a past Saturday (01.04.2023) is returned
unmodified. -/
theorem next_brunch_date_override_verbatim_witness :
    ("01.04.2023" ≠ "" ∧ parseDMY "01.04.2023" = some ⟨2023, 4, 1⟩) ∧
    next_brunch_date (some "01.04.2023") ⟨2024, 3, 1, 0, 0, 0, 0⟩ = "01.04.2023" :=
  ⟨⟨by decide, by decide⟩,
    next_brunch_date_override_verbatim "01.04.2023" ⟨2024, 3, 1, 0, 0, 0, 0⟩
      ⟨2023, 4, 1⟩ (by decide) (by decide)⟩

/-- C4: `is_registration_open` is false when cancelled, and otherwise false
exactly when `now` lies in the inclusive window from 00:00 two days before
the resolved (possibly overridden) event date `D` through 15:00 on `D`; in
particular it is false at the window-start boundary itself and true strictly
before it. -/
theorem is_registration_open_window (o c : Option String) (now : DateTime)
    (D : Date) (hD : parseDMY (next_brunch_date o now) = some D) :
    is_registration_open o c now =
      Except.ok (!is_event_cancelled c &&
        !decide (dtKey (atTime (prevDay (prevDay D)) 0 0 0 0) ≤ dtKey now ∧
                 dtKey now ≤ dtKey (atTime D 15 0 0 0))) ∧
    (is_event_cancelled c = false →
      dtKey now < dtKey (atTime (prevDay (prevDay D)) 0 0 0 0) →
      is_registration_open o c now = Except.ok true) ∧
    (dtKey (atTime (prevDay (prevDay D)) 0 0 0 0) ≤ dtKey now →
      dtKey now ≤ dtKey (atTime D 15 0 0 0) →
      is_registration_open o c now = Except.ok false) := by
  have hmain : is_registration_open o c now =
      Except.ok (!is_event_cancelled c &&
        !decide (dtKey (atTime (prevDay (prevDay D)) 0 0 0 0) ≤ dtKey now ∧
                 dtKey now ≤ dtKey (atTime D 15 0 0 0))) := by
    unfold is_registration_open
    by_cases hc : is_event_cancelled c = true
    · rw [if_pos hc, hc]
      rfl
    · rw [if_neg hc, hD]
      rw [Bool.not_eq_true] at hc
      rw [hc]
      rfl
  refine ⟨hmain, ?_, ?_⟩
  · intro hc hlt
    have hP : ¬ (dtKey (atTime (prevDay (prevDay D)) 0 0 0 0) ≤ dtKey now ∧
        dtKey now ≤ dtKey (atTime D 15 0 0 0)) := by omega
    rw [hmain, hc]
    simp [hP]
  · intro hge hle
    rw [hmain]
    have hP : dtKey (atTime (prevDay (prevDay D)) 0 0 0 0) ≤ dtKey now ∧
        dtKey now ≤ dtKey (atTime D 15 0 0 0) := ⟨hge, hle⟩
    simp [hP]

/-- Witness for C4: with the override 15.06.2025 resolved, noon on Saturday
14.06.2025 lies inside the closed window, so registration is closed. -/
theorem is_registration_open_window_witness :
    parseDMY (next_brunch_date (some "15.06.2025") ⟨2025, 6, 14, 12, 0, 0, 0⟩) =
      some ⟨2025, 6, 15⟩ ∧
    is_registration_open (some "15.06.2025") none ⟨2025, 6, 14, 12, 0, 0, 0⟩ =
      Except.ok false :=
  ⟨by decide,
    (is_registration_open_window (some "15.06.2025") none
        ⟨2025, 6, 14, 12, 0, 0, 0⟩ ⟨2025, 6, 15⟩ (by decide)).2.2
      (by decide) (by decide)⟩

/-- C7: `should_reset_database` returns `ok` of whether `now` is strictly
after 15:00 on the current resolved event date, which is the override
verbatim when the override is set and parses, and the current month's
default occurrence (with no advancing to the next month) otherwise. -/
theorem should_reset_database_spec (o : Option String) (now : DateTime)
    (hy1 : 1 ≤ now.year) (hy2 : now.year ≤ 9999)
    (hm1 : 1 ≤ now.month) (hm2 : now.month ≤ 12) :
    (∀ s D, o = some s → s ≠ "" → parseDMY s = some D →
      should_reset_database o now =
        Except.ok (decide (dtKey (atTime D 15 0 0 0) < dtKey now))) ∧
    ((optTruthy o = false ∨ parseDMY (o.getD "") = none) →
      should_reset_database o now =
        Except.ok (decide
          (dtKey (atTime (event_date_for_month now.year now.month) 15 0 0 0) <
            dtKey now))) := by
  constructor
  · rintro s D rfl hs hD
    have hcur : current_brunch_date (some s) now = s := by
      unfold current_brunch_date
      rw [show (some s).getD "" = s from rfl, hD]
      simp [optTruthy, hs]
    unfold should_reset_database
    rw [hcur, hD]
  · intro hfb
    have hb := event_day_bounds now.year now.month
    have h28 := daysInMonth_ge now.year now.month
    have hev : ValidDate (event_date_for_month now.year now.month) := by
      refine ⟨by omega, ?_, hm1, hm2, hy1, hy2⟩
      show (event_date_for_month now.year now.month).day ≤
        daysInMonth (event_date_for_month now.year now.month).year
          (event_date_for_month now.year now.month).month
      have hyy : (event_date_for_month now.year now.month).year = now.year := rfl
      have hmm : (event_date_for_month now.year now.month).month = now.month := rfl
      rw [hyy, hmm]
      omega
    have hcur : current_brunch_date o now =
        fmtDate (event_date_for_month now.year now.month) := by
      unfold current_brunch_date
      rcases hfb with h | h
      · rw [h]
        simp
      · rw [h]
        simp
    unfold should_reset_database
    rw [hcur, parseDMY_fmtDate hev]

/-- Witness for C7: with no override, just after the March 2024 cutoff the
reset predicate fires. -/
theorem should_reset_database_spec_witness :
    should_reset_database none ⟨2024, 3, 17, 16, 0, 0, 0⟩ = Except.ok true := by
  have h := (should_reset_database_spec none ⟨2024, 3, 17, 16, 0, 0, 0⟩
    (by decide) (by decide) (by decide) (by decide)).2 (Or.inl (by decide))
  rw [h]
  decide

/-- C5 (code bug): with a valid stored override that is strictly earlier
than the default occurrence of its own month — the claim's one-off case —
the reset transition raises `TypeError` from the naive-vs-aware datetime
comparison before any configuration write, instead of clearing the
cancelled flag and advancing the override. -/
theorem reset_transition_raises_on_one_off_override :
    reset_config_transition (some "01.06.2025") = Except.error PyExn.typeError ∧
    parseDMY "01.06.2025" = some ⟨2025, 6, 1⟩ ∧
    dtKey (atTime ⟨2025, 6, 1⟩ 0 0 0 0) <
      dtKey (atTime (event_date_for_month 2025 6) 0 0 0 0) := by
  refine ⟨rfl, by decide, by decide⟩

/-- C6 (code bug): the read-path resolvers swallow a malformed override and
fall back to the rule-computed date, and the reset transition clears a
malformed override, but a stored override that parses as a valid date makes
the reset transition raise an uncaught `TypeError`, contradicting the claim
that no exception propagates. -/
theorem reset_transition_typeerror_on_valid_override :
    reset_config_transition (some "21.09.2025") = Except.error PyExn.typeError ∧
    (∀ now, next_brunch_date (some "32.13.2024") now = next_brunch_date none now) ∧
    (∀ now, current_brunch_date (some "32.13.2024") now =
      current_brunch_date none now) ∧
    should_show_exception_notice (some "32.13.2024") = false ∧
    reset_config_transition (some "32.13.2024") = Except.ok (some "", some "0") := by
  have h1 : (optTruthy (some "32.13.2024") &&
      (parseDMY ((some "32.13.2024").getD "")).isSome) = false := by decide
  have h2 : (optTruthy (none : Option String) &&
      (parseDMY ((none : Option String).getD "")).isSome) = false := by decide
  refine ⟨rfl, ?_, ?_, by decide, by decide⟩
  · intro now
    unfold next_brunch_date
    rw [h1, h2]
    simp
  · intro now
    unfold current_brunch_date
    rw [h1, h2]
    simp

/-- C8: the admin write path stores an empty override for an empty
submission, rejects a non-empty submission that fails to parse as
`%Y-%m-%d` by storing an empty override, and stores a parsed submission in
day.month.year form (which parses back to the submitted date). -/
theorem update_settings_override_handling (od : String) (b : Bool) :
    (od = "" → (update_settings od b).1 = "") ∧
    (od ≠ "" → parseYMD od = none → (update_settings od b).1 = "") ∧
    (∀ D, parseYMD od = some D →
      (update_settings od b).1 = fmtDate D ∧
      parseDMY ((update_settings od b).1) = some D) := by
  refine ⟨?_, ?_, ?_⟩
  · intro h
    unfold update_settings
    rw [if_pos h]
  · intro h hn
    unfold update_settings
    rw [if_neg h, hn]
  · intro D hD
    have h : od ≠ "" := by
      intro he
      rw [he, show parseYMD "" = none from rfl] at hD
      exact Option.noConfusion hD
    unfold update_settings
    rw [if_neg h, hD]
    exact ⟨rfl, parseDMY_fmtDate (parseYMD_valid hD)⟩

/-- Witness for C8: a parsed submission is stored as day.month.year, an
unparseable one and an empty one both store the empty string. -/
theorem update_settings_override_handling_witness :
    (update_settings "2024-03-17" true).1 = "17.03.2024" ∧
    (update_settings "nonsense" true).1 = "" ∧
    (update_settings "" false).1 = "" := by
  refine ⟨?_, ?_, ?_⟩
  · have h := (update_settings_override_handling "2024-03-17" true).2.2
      ⟨2024, 3, 17⟩ (by decide)
    rw [h.1]
    decide
  · exact (update_settings_override_handling "nonsense" true).2.1
      (by decide) (by decide)
  · exact (update_settings_override_handling "" false).1 rfl

/-- C9 counterexample: the stored value "yes" is truthy, yet
`is_event_cancelled` returns false, so the function does not return true for
every truthy stored value. -/
theorem is_event_cancelled_truthiness_counterexample :
    optTruthy (some "yes") = true ∧ is_event_cancelled (some "yes") = false := by
  decide

/-- C9 (amended): `is_event_cancelled` returns true iff the stored flag is
exactly the string "1"; it reflects the boolean last written by
`update_settings` and takes no date input. -/
theorem is_event_cancelled_exact (c : Option String) (od : String) (b : Bool) :
    (is_event_cancelled c = true ↔ c = some "1") ∧
    is_event_cancelled (some (update_settings od b).2) = b := by
  constructor
  · simp [is_event_cancelled]
  · unfold update_settings is_event_cancelled
    cases b <;> rfl

/-- C10 counterexample: the state stored by `update_settings` with the
checkbox clear holds the flag "0", which is truthy as a Python string,
yet the exact-equality check yields false — so the check does not coincide
with truthiness on write-path-reachable states. -/
theorem update_settings_truthiness_counterexample :
    (update_settings "" false).2 = "0" ∧ optTruthy (some "0") = true ∧
    is_event_cancelled (some "0") = false := by
  decide

/-- C10 (amended): after every `update_settings` execution the stored
cancelled flag is exactly "1" or "0", the stored override is the empty
string or a day.month.year rendering of a valid date that parses back to
it, and the exact-equality check of `is_event_cancelled` coincides with the
submitted checkbox boolean. -/
theorem update_settings_invariant (od : String) (b : Bool) :
    ((update_settings od b).2 = "1" ∨ (update_settings od b).2 = "0") ∧
    ((update_settings od b).1 = "" ∨
      ∃ D, ValidDate D ∧ (update_settings od b).1 = fmtDate D ∧
        parseDMY ((update_settings od b).1) = some D) ∧
    (is_event_cancelled (some (update_settings od b).2) = true ↔ b = true) := by
  refine ⟨?_, ?_, ?_⟩
  · unfold update_settings
    cases b
    · exact Or.inr rfl
    · exact Or.inl rfl
  · unfold update_settings
    by_cases h : od = ""
    · rw [if_pos h]
      exact Or.inl rfl
    · rw [if_neg h]
      rcases hp : parseYMD od with _ | D
      · exact Or.inl rfl
      · exact Or.inr ⟨D, parseYMD_valid hp, rfl, parseDMY_fmtDate (parseYMD_valid hp)⟩
  · unfold update_settings is_event_cancelled
    cases b <;> simp
